import Mathlib

/-!
Shallow embedding of `src/src/lib.rs` (HyperliquidSwift): a thin wrapper around
the `hyperliquid_rust_sdk` exchange/info clients.  External collaborators (the
SDK clients, the `tokio` runtime constructor, `alloy` address/key parsing,
Rust's `str::parse::<f64>` and `format!("{:?}", _)`) are modelled as explicit
environment parameters: records of total functions standing for the behaviour
the external world exhibits during one call.  Rust `f64` values carried through
unchanged are modelled as rationals; the decimal-text parser itself is an
environment parameter, so nothing depends on floating-point rounding.
-/

namespace HyperliquidSwift

/-- Error enum `HyperliquidError` from lib.rs lines 16-26. -/
inductive HyperliquidError where
  | invalidPrivateKey (message : String)
  | networkError (message : String)
  | apiError (message : String)
  | invalidInput (message : String)
  deriving DecidableEq

/-- SDK-side errors (`hyperliquid_rust_sdk::Error`), modelled by their
`to_string()` rendering, which is all the wrapper ever looks at. -/
abbrev SdkError := String

/-- The `From<hyperliquid_rust_sdk::Error> for HyperliquidError` impl,
lib.rs lines 28-32: every SDK error becomes `ApiError`. -/
def hyperliquidErrorFromSdk (err : SdkError) : HyperliquidError :=
  HyperliquidError.apiError err

/-- `true` exactly on the `NetworkError` variant. -/
def HyperliquidError.isNetworkError : HyperliquidError → Bool
  | HyperliquidError.networkError _ => true
  | _ => false

/-- Wrapper-level network selector, lib.rs lines 34-38. -/
inductive BaseUrl where
  | mainnet
  | testnet
  deriving DecidableEq

/-- SDK-level network selector (`hyperliquid_rust_sdk::BaseUrl`). -/
inductive SdkBaseUrl where
  | mainnet
  | testnet
  deriving DecidableEq

/-- `From<BaseUrl> for SdkBaseUrl`, lib.rs lines 40-47. -/
def sdkBaseUrlFrom : BaseUrl → SdkBaseUrl
  | BaseUrl.mainnet => SdkBaseUrl.mainnet
  | BaseUrl.testnet => SdkBaseUrl.testnet

/-- An `alloy` account address (20-byte value), modelled abstractly by a
natural number; the wrapper never inspects it, only passes it through. -/
structure Address where
  val : Nat
  deriving DecidableEq

/-- `alloy` `PrivateKeySigner`: the wrapper only ever calls `.address()`. -/
structure PrivateKeySigner where
  address : Address
  deriving DecidableEq

/-- Caller-facing `OrderRequest`, lib.rs lines 49-56 (`f64` as `ℚ`). -/
structure OrderRequest where
  asset : String
  is_buy : Bool
  size : ℚ
  price : ℚ
  reduce_only : Bool
  deriving DecidableEq

/-- Caller-facing `CancelRequest`, lib.rs lines 58-62. -/
structure CancelRequest where
  asset : String
  oid : Nat
  deriving DecidableEq

/-- Caller-facing `UserState`, lib.rs lines 64-70. -/
structure UserState where
  address : String
  margin_summary_equity : ℚ
  margin_summary_account_value : ℚ
  margin_summary_total_margin_used : ℚ
  deriving DecidableEq

/-- Caller-facing `OpenOrder`, lib.rs lines 72-80. -/
structure OpenOrder where
  asset : String
  is_buy : Bool
  size : ℚ
  price : ℚ
  oid : Nat
  timestamp : Nat
  deriving DecidableEq

/-- Caller-facing `UserBalance`, lib.rs lines 82-87. -/
structure UserBalance where
  token : String
  hold : ℚ
  total : ℚ
  deriving DecidableEq

/-- SDK `ClientLimit`: the time-in-force string. -/
structure ClientLimit where
  tif : String
  deriving DecidableEq

/-- SDK `ClientOrder`: the order-type enum.  The wrapper only ever builds the
`Limit` variant; the trigger variant is carried so that fixing the order type
is a real statement. -/
inductive ClientOrder where
  | limit (l : ClientLimit)
  | trigger (info : String)
  deriving DecidableEq

/-- SDK `ClientOrderRequest` as the wrapper fills it (cloid is an optional
client order id, a UUID modelled by a string). -/
structure ClientOrderRequest where
  asset : String
  is_buy : Bool
  reduce_only : Bool
  limit_px : ℚ
  sz : ℚ
  order_type : ClientOrder
  cloid : Option String
  deriving DecidableEq

/-- SDK `ClientCancelRequest`. -/
structure ClientCancelRequest where
  asset : String
  oid : Nat
  deriving DecidableEq

/-- SDK margin summary: the venue returns decimal values as text. -/
structure MarginSummary where
  account_value : String
  total_margin_used : String
  deriving DecidableEq

/-- SDK user-state response shape (the part the wrapper reads). -/
structure SdkUserState where
  margin_summary : MarginSummary
  deriving DecidableEq

/-- SDK open-order response row (the fields the wrapper reads). -/
structure SdkOpenOrder where
  coin : String
  side : String
  sz : String
  limit_px : String
  oid : Nat
  timestamp : Nat
  deriving DecidableEq

/-- SDK token-balance response row. -/
structure SdkTokenBalance where
  coin : String
  hold : String
  total : String
  deriving DecidableEq

/-- SDK token-balances response (`balances.balances` is iterated). -/
structure SdkTokenBalances where
  balances : List SdkTokenBalance
  deriving DecidableEq

/-- SDK responses that the wrapper only debug-formats are modelled by the
text their `Debug` rendering would feed from. -/
abbrev SdkResponse := String

/-- Behaviour of the SDK `ExchangeClient` during one call: each method is a
total function from the request the wrapper submits to the response the
venue returns.  `coin_to_asset` is the asset-mapping table (a `HashMap` in
the SDK; the list order stands for its unspecified iteration order). -/
structure ExchangeClient where
  coin_to_asset : List (String × Nat)
  order : ClientOrderRequest → Except SdkError SdkResponse
  cancel : ClientCancelRequest → Except SdkError SdkResponse
  bulk_cancel : List ClientCancelRequest → Except SdkError SdkResponse

/-- Behaviour of the SDK `InfoClient` during one call. -/
structure InfoClient where
  user_state : Address → Except SdkError SdkUserState
  open_orders : Address → Except SdkError (List SdkOpenOrder)
  user_token_balances : Address → Except SdkError SdkTokenBalances
  all_mids : Except SdkError (List (String × String))

/-- Behaviour of the Rust standard environment during one call:
`parseAddress` is `str::parse::<alloy::primitives::Address>` (error rendered
to string), `parseF64` is `str::parse::<f64>` (`none` on parse failure),
`fmtDebug` is `format!("{:?}", _)` on an SDK response, and `fmtAddress` is
`format!("{:?}", _)` on an address. -/
structure RustEnv where
  parseAddress : String → Except String Address
  parseF64 : String → Option ℚ
  fmtDebug : SdkResponse → String
  fmtAddress : Address → String

/-- `tokio::runtime::Runtime::block_on`: runs the async body to completion
and hands back its value unchanged. -/
def run_blocking {α : Type} (task : α) : α := task

/-- `HyperliquidExchange` session object, lib.rs lines 89-93 (the runtime
handle carries no data at this level). -/
structure HyperliquidExchange where
  client : ExchangeClient
  runtime : Unit
  wallet_address : String

/-- `HyperliquidInfo` session object, lib.rs lines 221-224. -/
structure HyperliquidInfo where
  client : InfoClient
  runtime : Unit

/-- Construction-time environment for `HyperliquidExchange::new`:
`runtimeNew` is `tokio::runtime::Runtime::new()` (error rendered to string),
`parsePrivateKey` is `str::parse::<PrivateKeySigner>`, and
`exchangeClientNew` is `ExchangeClient::new(None, wallet, Some(url), None,
None)`. -/
structure ExchangeNewEnv where
  runtimeNew : Except String Unit
  parsePrivateKey : String → Except String PrivateKeySigner
  exchangeClientNew : PrivateKeySigner → SdkBaseUrl → Except SdkError ExchangeClient

/-- Construction-time environment for `HyperliquidInfo::new`:
`runtimeNew` is `tokio::runtime::Runtime::new()`, `infoClientNew` is
`InfoClient::new(None, Some(url))`. -/
structure InfoNewEnv where
  runtimeNew : Except String Unit
  infoClientNew : SdkBaseUrl → Except SdkError InfoClient

/-- `HyperliquidExchange::new`, lib.rs lines 96-110. -/
def HyperliquidExchange.new (env : ExchangeNewEnv) (rust : RustEnv)
    (private_key : String) (base_url : BaseUrl) :
    Except HyperliquidError HyperliquidExchange := do
  let runtime ← env.runtimeNew.mapError
    (fun e => HyperliquidError.networkError e)
  let wallet ← (env.parsePrivateKey private_key).mapError
    (fun e => HyperliquidError.invalidPrivateKey e)
  let wallet_address := rust.fmtAddress wallet.address
  let client ← run_blocking
    ((env.exchangeClientNew wallet (sdkBaseUrlFrom base_url)).mapError
      hyperliquidErrorFromSdk)
  pure { client := client, runtime := runtime, wallet_address := wallet_address }

/-- `HyperliquidExchange::get_wallet_address`, lib.rs lines 112-114. -/
def HyperliquidExchange.get_wallet_address (self : HyperliquidExchange) : String :=
  self.wallet_address

/-- The `ClientOrderRequest` that `place_order`/`place_order_async` build
from a caller `OrderRequest`, lib.rs lines 118-128 and 136-146. -/
def mkClientOrder (order : OrderRequest) : ClientOrderRequest :=
  { asset := order.asset
    is_buy := order.is_buy
    reduce_only := order.reduce_only
    limit_px := order.price
    sz := order.size
    order_type := ClientOrder.limit { tif := "Gtc" }
    cloid := none }

/-- `HyperliquidExchange::place_order`, lib.rs lines 116-133. -/
def HyperliquidExchange.place_order (self : HyperliquidExchange) (rust : RustEnv)
    (order : OrderRequest) : Except HyperliquidError String :=
  run_blocking (do
    let client_order := mkClientOrder order
    let response ← (self.client.order client_order).mapError hyperliquidErrorFromSdk
    pure (rust.fmtDebug response))

/-- `HyperliquidExchange::place_order_async`, lib.rs lines 135-150. -/
def HyperliquidExchange.place_order_async (self : HyperliquidExchange) (rust : RustEnv)
    (order : OrderRequest) : Except HyperliquidError String := do
  let client_order := mkClientOrder order
  let response ← (self.client.order client_order).mapError hyperliquidErrorFromSdk
  pure (rust.fmtDebug response)

/-- `HyperliquidExchange::cancel_order`, lib.rs lines 152-162. -/
def HyperliquidExchange.cancel_order (self : HyperliquidExchange) (rust : RustEnv)
    (cancel : CancelRequest) : Except HyperliquidError String :=
  run_blocking (do
    let cancel_req : ClientCancelRequest := { asset := cancel.asset, oid := cancel.oid }
    let response ← (self.client.cancel cancel_req).mapError hyperliquidErrorFromSdk
    pure (rust.fmtDebug response))

/-- `HyperliquidExchange::cancel_order_async`, lib.rs lines 164-172. -/
def HyperliquidExchange.cancel_order_async (self : HyperliquidExchange) (rust : RustEnv)
    (cancel : CancelRequest) : Except HyperliquidError String := do
  let cancel_req : ClientCancelRequest := { asset := cancel.asset, oid := cancel.oid }
  let response ← (self.client.cancel cancel_req).mapError hyperliquidErrorFromSdk
  pure (rust.fmtDebug response)

/-- `HyperliquidExchange::cancel_all_orders`, lib.rs lines 174-196.  The
`None` branch iterates `self.client.coin_to_asset.keys()` pushing one cancel
request with sentinel oid 0 per key. -/
def HyperliquidExchange.cancel_all_orders (self : HyperliquidExchange) (rust : RustEnv)
    (asset : Option String) : Except HyperliquidError String :=
  run_blocking (do
    let response ←
      match asset with
      | some asset_name =>
          (self.client.bulk_cancel [{ asset := asset_name, oid := 0 }]).mapError
            hyperliquidErrorFromSdk
      | none =>
          (self.client.bulk_cancel
            ((self.client.coin_to_asset.map Prod.fst).map
              (fun asset_name => { asset := asset_name, oid := 0 }))).mapError
            hyperliquidErrorFromSdk
    pure (rust.fmtDebug response))

/-- `HyperliquidExchange::cancel_all_orders_async`, lib.rs lines 198-218. -/
def HyperliquidExchange.cancel_all_orders_async (self : HyperliquidExchange) (rust : RustEnv)
    (asset : Option String) : Except HyperliquidError String := do
  let response ←
    match asset with
    | some asset_name =>
        (self.client.bulk_cancel [{ asset := asset_name, oid := 0 }]).mapError
          hyperliquidErrorFromSdk
    | none =>
        (self.client.bulk_cancel
          ((self.client.coin_to_asset.map Prod.fst).map
            (fun asset_name => { asset := asset_name, oid := 0 }))).mapError
          hyperliquidErrorFromSdk
  pure (rust.fmtDebug response)

/-- `HyperliquidInfo::new`, lib.rs lines 227-236: runtime-allocation failure
maps to `NetworkError`; `InfoClient::new` failure goes through the `From`
impl (hence `ApiError`). -/
def HyperliquidInfo.new (env : InfoNewEnv) (base_url : BaseUrl) :
    Except HyperliquidError HyperliquidInfo := do
  let runtime ← env.runtimeNew.mapError
    (fun e => HyperliquidError.networkError e)
  let client ← run_blocking
    ((env.infoClientNew (sdkBaseUrlFrom base_url)).mapError hyperliquidErrorFromSdk)
  pure { client := client, runtime := runtime }

/-- The `UserState` built from a venue margin summary, lib.rs lines 245-250:
both `equity` and `account_value` read `margin_summary.account_value`, and
every parse failure defaults to 0.0. -/
def mkUserState (rust : RustEnv) (address : String) (state : SdkUserState) : UserState :=
  { address := address
    margin_summary_equity := (rust.parseF64 state.margin_summary.account_value).getD 0
    margin_summary_account_value := (rust.parseF64 state.margin_summary.account_value).getD 0
    margin_summary_total_margin_used :=
      (rust.parseF64 state.margin_summary.total_margin_used).getD 0 }

/-- `HyperliquidInfo::get_user_state`, lib.rs lines 238-252. -/
def HyperliquidInfo.get_user_state (self : HyperliquidInfo) (rust : RustEnv)
    (address : String) : Except HyperliquidError UserState :=
  run_blocking (do
    let addr ← (rust.parseAddress address).mapError
      (fun e => HyperliquidError.invalidInput e)
    let state ← (self.client.user_state addr).mapError hyperliquidErrorFromSdk
    pure (mkUserState rust address state))

/-- `HyperliquidInfo::get_user_state_async`, lib.rs lines 254-266. -/
def HyperliquidInfo.get_user_state_async (self : HyperliquidInfo) (rust : RustEnv)
    (address : String) : Except HyperliquidError UserState := do
  let addr ← (rust.parseAddress address).mapError
    (fun e => HyperliquidError.invalidInput e)
  let state ← (self.client.user_state addr).mapError hyperliquidErrorFromSdk
  pure (mkUserState rust address state)

/-- The loop body of `get_open_orders`/`get_open_orders_async`, lib.rs
lines 276-285 and 298-307: `is_buy` is the equality test `side == "B"`,
numeric text defaults to 0.0 on parse failure. -/
def mapOpenOrder (rust : RustEnv) (order : SdkOpenOrder) : OpenOrder :=
  { asset := order.coin
    is_buy := order.side == "B"
    size := (rust.parseF64 order.sz).getD 0
    price := (rust.parseF64 order.limit_px).getD 0
    oid := order.oid
    timestamp := order.timestamp }

/-- `HyperliquidInfo::get_open_orders`, lib.rs lines 268-289. -/
def HyperliquidInfo.get_open_orders (self : HyperliquidInfo) (rust : RustEnv)
    (address : String) : Except HyperliquidError (List OpenOrder) :=
  run_blocking (do
    let addr ← (rust.parseAddress address).mapError
      (fun e => HyperliquidError.invalidInput e)
    let orders ← (self.client.open_orders addr).mapError hyperliquidErrorFromSdk
    pure (orders.map (mapOpenOrder rust)))

/-- `HyperliquidInfo::get_open_orders_async`, lib.rs lines 291-310. -/
def HyperliquidInfo.get_open_orders_async (self : HyperliquidInfo) (rust : RustEnv)
    (address : String) : Except HyperliquidError (List OpenOrder) := do
  let addr ← (rust.parseAddress address).mapError
    (fun e => HyperliquidError.invalidInput e)
  let orders ← (self.client.open_orders addr).mapError hyperliquidErrorFromSdk
  pure (orders.map (mapOpenOrder rust))

/-- The loop body of `get_user_balances`/`get_user_balances_async`, lib.rs
lines 320-325 and 339-344. -/
def mapUserBalance (rust : RustEnv) (balance : SdkTokenBalance) : UserBalance :=
  { token := balance.coin
    hold := (rust.parseF64 balance.hold).getD 0
    total := (rust.parseF64 balance.total).getD 0 }

/-- `HyperliquidInfo::get_user_balances`, lib.rs lines 312-330. -/
def HyperliquidInfo.get_user_balances (self : HyperliquidInfo) (rust : RustEnv)
    (address : String) : Except HyperliquidError (List UserBalance) :=
  run_blocking (do
    let addr ← (rust.parseAddress address).mapError
      (fun e => HyperliquidError.invalidInput e)
    let balances ← (self.client.user_token_balances addr).mapError hyperliquidErrorFromSdk
    pure (balances.balances.map (mapUserBalance rust)))

/-- `HyperliquidInfo::get_user_balances_async`, lib.rs lines 332-348. -/
def HyperliquidInfo.get_user_balances_async (self : HyperliquidInfo) (rust : RustEnv)
    (address : String) : Except HyperliquidError (List UserBalance) := do
  let addr ← (rust.parseAddress address).mapError
    (fun e => HyperliquidError.invalidInput e)
  let balances ← (self.client.user_token_balances addr).mapError hyperliquidErrorFromSdk
  pure (balances.balances.map (mapUserBalance rust))

/-- `HyperliquidInfo::get_all_mids`, lib.rs lines 350-355. -/
def HyperliquidInfo.get_all_mids (self : HyperliquidInfo) :
    Except HyperliquidError (List (String × String)) :=
  run_blocking (do
    let mids ← self.client.all_mids.mapError hyperliquidErrorFromSdk
    pure mids)

/-- `HyperliquidInfo::get_all_mids_async`, lib.rs lines 357-360. -/
def HyperliquidInfo.get_all_mids_async (self : HyperliquidInfo) :
    Except HyperliquidError (List (String × String)) := do
  let mids ← self.client.all_mids.mapError hyperliquidErrorFromSdk
  pure mids

/-! ### Concrete environments used to exercise the definitions -/

/-- A fixed concrete address value. -/
def addr0 : Address := { val := 0 }

/-- A standard environment whose address parser accepts everything and whose
decimal parser fails on every string. -/
def rustEnvNoParse : RustEnv :=
  { parseAddress := fun _ => Except.ok addr0
    parseF64 := fun _ => none
    fmtDebug := fun s => s
    fmtAddress := fun _ => "0x0000" }

/-- A standard environment whose address parser rejects everything. -/
def rustEnvBadAddress : RustEnv :=
  { parseAddress := fun _ => Except.error "invalid string length"
    parseF64 := fun _ => none
    fmtDebug := fun s => s
    fmtAddress := fun _ => "0x0000" }

/-- A venue margin summary whose numeric texts are unparsable. -/
def sdkUserState0 : SdkUserState :=
  { margin_summary := { account_value := "not-a-number", total_margin_used := "also-bad" } }

/-- Venue open-order rows with side codes B, A and an unrecognized code. -/
def sdkOrders0 : List SdkOpenOrder :=
  [ { coin := "BTC", side := "B", sz := "bad1", limit_px := "bad2", oid := 5, timestamp := 9 }
  , { coin := "ETH", side := "A", sz := "0.5", limit_px := "2000", oid := 6, timestamp := 10 }
  , { coin := "SOL", side := "Z", sz := "1", limit_px := "100", oid := 7, timestamp := 11 } ]

/-- Venue balances with unparsable numeric texts. -/
def sdkBals0 : SdkTokenBalances :=
  { balances := [ { coin := "USDC", hold := "oops", total := "nope" } ] }

/-- A concrete info client answering every query successfully. -/
def infoClient0 : InfoClient :=
  { user_state := fun _ => Except.ok sdkUserState0
    open_orders := fun _ => Except.ok sdkOrders0
    user_token_balances := fun _ => Except.ok sdkBals0
    all_mids := Except.ok [("BTC", "50000.0")] }

/-- A concrete info session. -/
def hlInfo0 : HyperliquidInfo := { client := infoClient0, runtime := () }

/-- A concrete exchange client with a two-entry asset table. -/
def exClient0 : ExchangeClient :=
  { coin_to_asset := [("BTC", 0), ("ETH", 1)]
    order := fun _ => Except.ok "orderStatus"
    cancel := fun _ => Except.ok "cancelStatus"
    bulk_cancel := fun _ => Except.ok "bulkStatus" }

/-- A concrete exchange session. -/
def hlEx0 : HyperliquidExchange :=
  { client := exClient0, runtime := (), wallet_address := "0x0000" }

/-- Info construction environment whose runner allocates but whose
session establishment fails. -/
def infoNewEnvClientFail : InfoNewEnv :=
  { runtimeNew := Except.ok ()
    infoClientNew := fun _ => Except.error "connection refused" }

/-- Info construction environment whose runner allocation fails. -/
def infoNewEnvRtFail : InfoNewEnv :=
  { runtimeNew := Except.error "cannot spawn worker threads"
    infoClientNew := fun _ => Except.ok infoClient0 }

/-! ### Claims -/

/-- C1, claim as stated is false on the code: when the runner allocates but
`InfoClient::new` fails, the SDK error goes through the `From` impl and comes
back as `ApiError`, not `NetworkError`. -/
theorem C1_counterexample :
    HyperliquidInfo.new infoNewEnvClientFail BaseUrl.testnet
      = Except.error (HyperliquidError.apiError "connection refused")
    ∧ (HyperliquidError.apiError "connection refused").isNetworkError = false :=
  ⟨rfl, rfl⟩

/-- C1 (amended): every failing `HyperliquidInfo::new` returns either a
`NetworkError` carrying the runner-allocation failure, or — when the runner
allocated but session establishment failed — an `ApiError` carrying the SDK
error; no other kind occurs. -/
theorem C1_info_new_failure_kinds (env : InfoNewEnv) (base_url : BaseUrl)
    (e : HyperliquidError)
    (h : HyperliquidInfo.new env base_url = Except.error e) :
    (∃ m, env.runtimeNew = Except.error m ∧ e = HyperliquidError.networkError m)
    ∨ (∃ m, env.runtimeNew = Except.ok ()
        ∧ env.infoClientNew (sdkBaseUrlFrom base_url) = Except.error m
        ∧ e = HyperliquidError.apiError m) := by
  cases hr : env.runtimeNew with
  | error m =>
      left
      refine ⟨m, rfl, ?_⟩
      simp only [HyperliquidInfo.new, run_blocking, hr, Except.mapError, Except.bind,
        Bind.bind] at h
      exact (Except.error.injEq _ _).mp h.symm
  | ok u =>
      right
      cases hc : env.infoClientNew (sdkBaseUrlFrom base_url) with
      | error m =>
          refine ⟨m, by simp [hr], rfl, ?_⟩
          simp only [HyperliquidInfo.new, run_blocking, hr, hc, Except.mapError,
            Except.bind, Bind.bind, hyperliquidErrorFromSdk] at h
          exact (Except.error.injEq _ _).mp h.symm
      | ok c =>
          exfalso
          simp only [HyperliquidInfo.new, run_blocking, hr, hc, Except.mapError,
            Except.bind, Bind.bind, Pure.pure, Except.pure] at h
          exact Except.noConfusion h

/-- C1 witness: a concrete failing construction (runner allocation fails). -/
theorem C1_info_new_failure_kinds_witness :
    HyperliquidInfo.new infoNewEnvRtFail BaseUrl.testnet
      = Except.error (HyperliquidError.networkError "cannot spawn worker threads")
    ∧ ((∃ m, infoNewEnvRtFail.runtimeNew = Except.error m
          ∧ HyperliquidError.networkError "cannot spawn worker threads"
            = HyperliquidError.networkError m)
        ∨ (∃ m, infoNewEnvRtFail.runtimeNew = Except.ok ()
            ∧ infoNewEnvRtFail.infoClientNew (sdkBaseUrlFrom BaseUrl.testnet)
              = Except.error m
            ∧ HyperliquidError.networkError "cannot spawn worker threads"
              = HyperliquidError.apiError m)) :=
  ⟨rfl, C1_info_new_failure_kinds infoNewEnvRtFail BaseUrl.testnet _ rfl⟩

/-- Success path of `get_user_state`: valid address and successful venue
query yield the mapped `UserState`. -/
theorem get_user_state_ok (self : HyperliquidInfo) (rust : RustEnv) (address : String)
    (addr : Address) (st : SdkUserState)
    (hA : rust.parseAddress address = Except.ok addr)
    (hS : self.client.user_state addr = Except.ok st) :
    self.get_user_state rust address = Except.ok (mkUserState rust address st) := by
  simp [HyperliquidInfo.get_user_state, run_blocking, hA, hS, Except.mapError,
    Bind.bind, Except.bind, Pure.pure, Except.pure]

/-- The async user-state query is the same function as the blocking one. -/
theorem get_user_state_async_eq (self : HyperliquidInfo) (rust : RustEnv)
    (address : String) :
    self.get_user_state_async rust address = self.get_user_state rust address := rfl

/-- Success path of `get_open_orders`. -/
theorem get_open_orders_ok (self : HyperliquidInfo) (rust : RustEnv) (address : String)
    (addr : Address) (orders : List SdkOpenOrder)
    (hA : rust.parseAddress address = Except.ok addr)
    (hO : self.client.open_orders addr = Except.ok orders) :
    self.get_open_orders rust address = Except.ok (orders.map (mapOpenOrder rust)) := by
  simp [HyperliquidInfo.get_open_orders, run_blocking, hA, hO, Except.mapError,
    Bind.bind, Except.bind, Pure.pure, Except.pure]

/-- The async open-orders query is the same function as the blocking one. -/
theorem get_open_orders_async_eq (self : HyperliquidInfo) (rust : RustEnv)
    (address : String) :
    self.get_open_orders_async rust address = self.get_open_orders rust address := rfl

/-- Success path of `get_user_balances`. -/
theorem get_user_balances_ok (self : HyperliquidInfo) (rust : RustEnv) (address : String)
    (addr : Address) (bals : SdkTokenBalances)
    (hA : rust.parseAddress address = Except.ok addr)
    (hB : self.client.user_token_balances addr = Except.ok bals) :
    self.get_user_balances rust address
      = Except.ok (bals.balances.map (mapUserBalance rust)) := by
  simp [HyperliquidInfo.get_user_balances, run_blocking, hA, hB, Except.mapError,
    Bind.bind, Except.bind, Pure.pure, Except.pure]

/-- The async balances query is the same function as the blocking one. -/
theorem get_user_balances_async_eq (self : HyperliquidInfo) (rust : RustEnv)
    (address : String) :
    self.get_user_balances_async rust address = self.get_user_balances rust address := rfl

/-- C2: on a successful venue response, every numeric text field that fails
to parse yields exactly 0 in the mapped record, and the call still succeeds
(never an error result), across `UserState`, `OpenOrder` and `UserBalance`. -/
theorem C2_parse_failure_defaults_to_zero (self : HyperliquidInfo) (rust : RustEnv)
    (address : String) (addr : Address) (st : SdkUserState)
    (orders : List SdkOpenOrder) (bals : SdkTokenBalances)
    (hA : rust.parseAddress address = Except.ok addr)
    (hS : self.client.user_state addr = Except.ok st)
    (hO : self.client.open_orders addr = Except.ok orders)
    (hB : self.client.user_token_balances addr = Except.ok bals) :
    (self.get_user_state rust address = Except.ok (mkUserState rust address st)
      ∧ (rust.parseF64 st.margin_summary.account_value = none →
          (mkUserState rust address st).margin_summary_equity = 0
          ∧ (mkUserState rust address st).margin_summary_account_value = 0)
      ∧ (rust.parseF64 st.margin_summary.total_margin_used = none →
          (mkUserState rust address st).margin_summary_total_margin_used = 0))
    ∧ (self.get_open_orders rust address = Except.ok (orders.map (mapOpenOrder rust))
      ∧ ∀ o : SdkOpenOrder,
          (rust.parseF64 o.sz = none → (mapOpenOrder rust o).size = 0)
          ∧ (rust.parseF64 o.limit_px = none → (mapOpenOrder rust o).price = 0))
    ∧ (self.get_user_balances rust address
        = Except.ok (bals.balances.map (mapUserBalance rust))
      ∧ ∀ b : SdkTokenBalance,
          (rust.parseF64 b.hold = none → (mapUserBalance rust b).hold = 0)
          ∧ (rust.parseF64 b.total = none → (mapUserBalance rust b).total = 0)) := by
  refine ⟨⟨get_user_state_ok self rust address addr st hA hS, ?_, ?_⟩,
    ⟨get_open_orders_ok self rust address addr orders hA hO, ?_⟩,
    ⟨get_user_balances_ok self rust address addr bals hA hB, ?_⟩⟩
  · intro h; simp [mkUserState, h]
  · intro h; simp [mkUserState, h]
  · intro o
    exact ⟨fun h => by simp [mapOpenOrder, h], fun h => by simp [mapOpenOrder, h]⟩
  · intro b
    exact ⟨fun h => by simp [mapUserBalance, h], fun h => by simp [mapUserBalance, h]⟩

/-- C2 witness: concrete session whose venue texts all fail to parse. -/
theorem C2_parse_failure_defaults_to_zero_witness :
    (rustEnvNoParse.parseAddress "0xabc" = Except.ok addr0
      ∧ hlInfo0.client.user_state addr0 = Except.ok sdkUserState0
      ∧ hlInfo0.client.open_orders addr0 = Except.ok sdkOrders0
      ∧ hlInfo0.client.user_token_balances addr0 = Except.ok sdkBals0)
    ∧ ((hlInfo0.get_user_state rustEnvNoParse "0xabc"
          = Except.ok (mkUserState rustEnvNoParse "0xabc" sdkUserState0)
      ∧ (rustEnvNoParse.parseF64 sdkUserState0.margin_summary.account_value = none →
          (mkUserState rustEnvNoParse "0xabc" sdkUserState0).margin_summary_equity = 0
          ∧ (mkUserState rustEnvNoParse "0xabc" sdkUserState0).margin_summary_account_value = 0)
      ∧ (rustEnvNoParse.parseF64 sdkUserState0.margin_summary.total_margin_used = none →
          (mkUserState rustEnvNoParse "0xabc" sdkUserState0).margin_summary_total_margin_used = 0))
    ∧ (hlInfo0.get_open_orders rustEnvNoParse "0xabc"
        = Except.ok (sdkOrders0.map (mapOpenOrder rustEnvNoParse))
      ∧ ∀ o : SdkOpenOrder,
          (rustEnvNoParse.parseF64 o.sz = none → (mapOpenOrder rustEnvNoParse o).size = 0)
          ∧ (rustEnvNoParse.parseF64 o.limit_px = none →
              (mapOpenOrder rustEnvNoParse o).price = 0))
    ∧ (hlInfo0.get_user_balances rustEnvNoParse "0xabc"
        = Except.ok (sdkBals0.balances.map (mapUserBalance rustEnvNoParse))
      ∧ ∀ b : SdkTokenBalance,
          (rustEnvNoParse.parseF64 b.hold = none → (mapUserBalance rustEnvNoParse b).hold = 0)
          ∧ (rustEnvNoParse.parseF64 b.total = none →
              (mapUserBalance rustEnvNoParse b).total = 0))) :=
  ⟨⟨rfl, rfl, rfl, rfl⟩,
    C2_parse_failure_defaults_to_zero hlInfo0 rustEnvNoParse "0xabc" addr0
      sdkUserState0 sdkOrders0 sdkBals0 rfl rfl rfl rfl⟩

/-- C3: an open order maps to `is_buy = true` exactly when the venue side
code equals "B"; every other code yields `is_buy = false`, and both the
blocking and async queries succeed with exactly that mapping — no error is
signaled for unrecognized codes. -/
theorem C3_side_code_b_means_buy (self : HyperliquidInfo) (rust : RustEnv)
    (address : String) (addr : Address) (orders : List SdkOpenOrder)
    (hA : rust.parseAddress address = Except.ok addr)
    (hO : self.client.open_orders addr = Except.ok orders) :
    self.get_open_orders rust address = Except.ok (orders.map (mapOpenOrder rust))
    ∧ self.get_open_orders_async rust address = Except.ok (orders.map (mapOpenOrder rust))
    ∧ (∀ o : SdkOpenOrder, ((mapOpenOrder rust o).is_buy = true ↔ o.side = "B"))
    ∧ (∀ o : SdkOpenOrder, o.side ≠ "B" → (mapOpenOrder rust o).is_buy = false) := by
  have hs := get_open_orders_ok self rust address addr orders hA hO
  refine ⟨hs, (get_open_orders_async_eq self rust address).trans hs, ?_, ?_⟩
  · intro o; simp [mapOpenOrder]
  · intro o h; simp [mapOpenOrder, h]

/-- C3 witness: venue rows with side codes "B", "A" and the unrecognized
"Z" map to buy, not-buy, not-buy. -/
theorem C3_side_code_b_means_buy_witness :
    (rustEnvNoParse.parseAddress "0xabc" = Except.ok addr0
      ∧ hlInfo0.client.open_orders addr0 = Except.ok sdkOrders0)
    ∧ (hlInfo0.get_open_orders rustEnvNoParse "0xabc"
        = Except.ok (sdkOrders0.map (mapOpenOrder rustEnvNoParse))
      ∧ hlInfo0.get_open_orders_async rustEnvNoParse "0xabc"
        = Except.ok (sdkOrders0.map (mapOpenOrder rustEnvNoParse))
      ∧ (∀ o : SdkOpenOrder, ((mapOpenOrder rustEnvNoParse o).is_buy = true ↔ o.side = "B"))
      ∧ (∀ o : SdkOpenOrder, o.side ≠ "B" →
          (mapOpenOrder rustEnvNoParse o).is_buy = false))
    ∧ ((hlInfo0.get_open_orders rustEnvNoParse "0xabc").map (List.map OpenOrder.is_buy)
        = Except.ok [true, false, false]) :=
  ⟨⟨rfl, rfl⟩,
    C3_side_code_b_means_buy hlInfo0 rustEnvNoParse "0xabc" addr0 sdkOrders0 rfl rfl,
    rfl⟩

/-- The bulk-cancel batch `cancel_all_orders(None)` builds: one request per
key of the asset-mapping table, each with sentinel oid 0. -/
def cancelAllBatch (client : ExchangeClient) : List ClientCancelRequest :=
  (client.coin_to_asset.map Prod.fst).map (fun asset_name => { asset := asset_name, oid := 0 })

/-- C4: `cancel_all_orders(None)` submits exactly one bulk-cancel batch with
one sentinel-oid-0 request per distinct asset-table key (same assets, no
duplicates when the keys are distinct, as `HashMap` keys are), an empty table
gives an empty batch and the call succeeds whenever the client accepts the
empty batch, and `cancel_all_orders(Some a)` submits the single-request batch
for `a` with sentinel oid 0. -/
theorem C4_cancel_all_orders_batch (self : HyperliquidExchange) (rust : RustEnv)
    (asset_name : String)
    (hnd : (self.client.coin_to_asset.map Prod.fst).Nodup) :
    (self.cancel_all_orders rust none
      = ((self.client.bulk_cancel (cancelAllBatch self.client)).mapError
          hyperliquidErrorFromSdk).map rust.fmtDebug)
    ∧ ((cancelAllBatch self.client).map ClientCancelRequest.asset
        = self.client.coin_to_asset.map Prod.fst)
    ∧ (∀ r ∈ cancelAllBatch self.client, r.oid = 0)
    ∧ (cancelAllBatch self.client).Nodup
    ∧ (self.client.coin_to_asset = [] →
        cancelAllBatch self.client = []
        ∧ ∀ resp, self.client.bulk_cancel [] = Except.ok resp →
            self.cancel_all_orders rust none = Except.ok (rust.fmtDebug resp))
    ∧ (self.cancel_all_orders rust (some asset_name)
      = ((self.client.bulk_cancel [{ asset := asset_name, oid := 0 }]).mapError
          hyperliquidErrorFromSdk).map rust.fmtDebug) := by
  have hbatch : self.cancel_all_orders rust none
      = ((self.client.bulk_cancel (cancelAllBatch self.client)).mapError
          hyperliquidErrorFromSdk).map rust.fmtDebug := by
    simp only [HyperliquidExchange.cancel_all_orders, run_blocking, cancelAllBatch]
    cases self.client.bulk_cancel
        ((self.client.coin_to_asset.map Prod.fst).map
          (fun asset_name => { asset := asset_name, oid := 0 })) with
    | error e => rfl
    | ok r => rfl
  refine ⟨hbatch, ?_, ?_, ?_, ?_, ?_⟩
  · simp [cancelAllBatch, Function.comp]
  · intro r hr
    simp only [cancelAllBatch, List.mem_map] at hr
    obtain ⟨a, _, rfl⟩ := hr
    rfl
  · refine List.Nodup.map ?_ hnd
    intro a b hab
    exact congrArg ClientCancelRequest.asset hab
  · intro hempty
    have hb : cancelAllBatch self.client = [] := by simp [cancelAllBatch, hempty]
    refine ⟨hb, ?_⟩
    intro resp hresp
    rw [hbatch, hb, hresp]
    rfl
  · simp only [HyperliquidExchange.cancel_all_orders, run_blocking]
    cases self.client.bulk_cancel [{ asset := asset_name, oid := 0 }] with
    | error e => rfl
    | ok r => rfl

/-- C4 witness: the two-asset table yields the two-request batch; a second
application on the empty-table client exercises the empty-batch conjunct. -/
theorem C4_cancel_all_orders_batch_witness :
    (exClient0.coin_to_asset.map Prod.fst).Nodup
    ∧ (hlEx0.cancel_all_orders rustEnvNoParse none
        = ((hlEx0.client.bulk_cancel (cancelAllBatch hlEx0.client)).mapError
            hyperliquidErrorFromSdk).map rustEnvNoParse.fmtDebug)
    ∧ ((cancelAllBatch hlEx0.client).map ClientCancelRequest.asset
        = hlEx0.client.coin_to_asset.map Prod.fst)
    ∧ (∀ r ∈ cancelAllBatch hlEx0.client, r.oid = 0)
    ∧ (cancelAllBatch hlEx0.client).Nodup
    ∧ (hlEx0.cancel_all_orders rustEnvNoParse (some "BTC")
        = ((hlEx0.client.bulk_cancel [{ asset := "BTC", oid := 0 }]).mapError
            hyperliquidErrorFromSdk).map rustEnvNoParse.fmtDebug)
    ∧ cancelAllBatch hlEx0.client
        = [{ asset := "BTC", oid := 0 }, { asset := "ETH", oid := 0 }] := by
  have h := C4_cancel_all_orders_batch hlEx0 rustEnvNoParse "BTC" (by decide)
  exact ⟨by decide, h.1, h.2.1, h.2.2.1, h.2.2.2.1, h.2.2.2.2.2, by decide⟩

/-- C5: when the address string fails to parse, every address-taking info
query — blocking and async — returns `InvalidInput` carrying the parse error,
for every possible client behaviour (so the client is never consulted). -/
theorem C5_invalid_address_no_network (client : InfoClient)
    (pA : String → Except String Address) (pF : String → Option ℚ)
    (fD : SdkResponse → String) (fA : Address → String)
    (address e : String) (h : pA address = Except.error e) :
    (HyperliquidInfo.get_user_state ⟨client, ()⟩ ⟨pA, pF, fD, fA⟩ address
        = Except.error (HyperliquidError.invalidInput e))
    ∧ (HyperliquidInfo.get_user_state_async ⟨client, ()⟩ ⟨pA, pF, fD, fA⟩ address
        = Except.error (HyperliquidError.invalidInput e))
    ∧ (HyperliquidInfo.get_open_orders ⟨client, ()⟩ ⟨pA, pF, fD, fA⟩ address
        = Except.error (HyperliquidError.invalidInput e))
    ∧ (HyperliquidInfo.get_open_orders_async ⟨client, ()⟩ ⟨pA, pF, fD, fA⟩ address
        = Except.error (HyperliquidError.invalidInput e))
    ∧ (HyperliquidInfo.get_user_balances ⟨client, ()⟩ ⟨pA, pF, fD, fA⟩ address
        = Except.error (HyperliquidError.invalidInput e))
    ∧ (HyperliquidInfo.get_user_balances_async ⟨client, ()⟩ ⟨pA, pF, fD, fA⟩ address
        = Except.error (HyperliquidError.invalidInput e)) := by
  refine ⟨?_, ?_, ?_, ?_, ?_, ?_⟩ <;>
    simp [HyperliquidInfo.get_user_state, HyperliquidInfo.get_user_state_async,
      HyperliquidInfo.get_open_orders, HyperliquidInfo.get_open_orders_async,
      HyperliquidInfo.get_user_balances, HyperliquidInfo.get_user_balances_async,
      run_blocking, h, Except.mapError, Bind.bind, Except.bind]

/-- C5 witness: the always-rejecting address parser at a concrete address. -/
theorem C5_invalid_address_no_network_witness :
    rustEnvBadAddress.parseAddress "zzz" = Except.error "invalid string length"
    ∧ ((HyperliquidInfo.get_user_state ⟨infoClient0, ()⟩
          ⟨rustEnvBadAddress.parseAddress, rustEnvBadAddress.parseF64,
            rustEnvBadAddress.fmtDebug, rustEnvBadAddress.fmtAddress⟩ "zzz"
        = Except.error (HyperliquidError.invalidInput "invalid string length"))
      ∧ (HyperliquidInfo.get_user_state_async ⟨infoClient0, ()⟩
          ⟨rustEnvBadAddress.parseAddress, rustEnvBadAddress.parseF64,
            rustEnvBadAddress.fmtDebug, rustEnvBadAddress.fmtAddress⟩ "zzz"
        = Except.error (HyperliquidError.invalidInput "invalid string length"))
      ∧ (HyperliquidInfo.get_open_orders ⟨infoClient0, ()⟩
          ⟨rustEnvBadAddress.parseAddress, rustEnvBadAddress.parseF64,
            rustEnvBadAddress.fmtDebug, rustEnvBadAddress.fmtAddress⟩ "zzz"
        = Except.error (HyperliquidError.invalidInput "invalid string length"))
      ∧ (HyperliquidInfo.get_open_orders_async ⟨infoClient0, ()⟩
          ⟨rustEnvBadAddress.parseAddress, rustEnvBadAddress.parseF64,
            rustEnvBadAddress.fmtDebug, rustEnvBadAddress.fmtAddress⟩ "zzz"
        = Except.error (HyperliquidError.invalidInput "invalid string length"))
      ∧ (HyperliquidInfo.get_user_balances ⟨infoClient0, ()⟩
          ⟨rustEnvBadAddress.parseAddress, rustEnvBadAddress.parseF64,
            rustEnvBadAddress.fmtDebug, rustEnvBadAddress.fmtAddress⟩ "zzz"
        = Except.error (HyperliquidError.invalidInput "invalid string length"))
      ∧ (HyperliquidInfo.get_user_balances_async ⟨infoClient0, ()⟩
          ⟨rustEnvBadAddress.parseAddress, rustEnvBadAddress.parseF64,
            rustEnvBadAddress.fmtDebug, rustEnvBadAddress.fmtAddress⟩ "zzz"
        = Except.error (HyperliquidError.invalidInput "invalid string length"))) :=
  ⟨rfl, C5_invalid_address_no_network infoClient0 rustEnvBadAddress.parseAddress
    rustEnvBadAddress.parseF64 rustEnvBadAddress.fmtDebug rustEnvBadAddress.fmtAddress
    "zzz" "invalid string length" rfl⟩

/-- C6: when the runner allocates but the signing-key string fails to parse,
`HyperliquidExchange::new` returns `InvalidPrivateKey` carrying the parse
error, for every possible exchange-client constructor behaviour (so no
exchange client is created and no session value is returned). -/
theorem C6_invalid_private_key (rt : Except String Unit)
    (ppk : String → Except String PrivateKeySigner)
    (ecn : PrivateKeySigner → SdkBaseUrl → Except SdkError ExchangeClient)
    (rust : RustEnv) (private_key e : String) (base_url : BaseUrl)
    (hrt : rt = Except.ok ())
    (h : ppk private_key = Except.error e) :
    HyperliquidExchange.new ⟨rt, ppk, ecn⟩ rust private_key base_url
      = Except.error (HyperliquidError.invalidPrivateKey e) := by
  simp [HyperliquidExchange.new, run_blocking, hrt, h, Except.mapError,
    Bind.bind, Except.bind]

/-- C6 witness: a concrete unparsable key string. -/
theorem C6_invalid_private_key_witness :
    (Except.ok () = (Except.ok () : Except String Unit)
      ∧ (fun _ : String => Except.error "invalid hex character")
          "nothex" = (Except.error "invalid hex character" :
            Except String PrivateKeySigner))
    ∧ HyperliquidExchange.new
        ⟨Except.ok (), fun _ => Except.error "invalid hex character",
          fun _ _ => Except.ok exClient0⟩
        rustEnvNoParse "nothex" BaseUrl.mainnet
      = Except.error (HyperliquidError.invalidPrivateKey "invalid hex character") :=
  ⟨⟨rfl, rfl⟩,
    C6_invalid_private_key (Except.ok ())
      (fun _ => Except.error "invalid hex character")
      (fun _ _ => Except.ok exClient0) rustEnvNoParse "nothex"
      "invalid hex character" BaseUrl.mainnet rfl rfl⟩

/-- C7: for every caller `OrderRequest`, both `place_order` and
`place_order_async` submit exactly `mkClientOrder order`, whose order type is
always a `Gtc` limit and whose client order id is always absent — no field of
the request changes that. -/
theorem C7_always_gtc_limit_no_cloid (self : HyperliquidExchange) (rust : RustEnv)
    (order : OrderRequest) :
    self.place_order rust order
      = ((self.client.order (mkClientOrder order)).mapError
          hyperliquidErrorFromSdk).map rust.fmtDebug
    ∧ self.place_order_async rust order
      = ((self.client.order (mkClientOrder order)).mapError
          hyperliquidErrorFromSdk).map rust.fmtDebug
    ∧ (mkClientOrder order).order_type = ClientOrder.limit { tif := "Gtc" }
    ∧ (mkClientOrder order).cloid = none := by
  have hsub : self.place_order_async rust order
      = ((self.client.order (mkClientOrder order)).mapError
          hyperliquidErrorFromSdk).map rust.fmtDebug := by
    simp only [HyperliquidExchange.place_order_async]
    cases self.client.order (mkClientOrder order) with
    | error e => rfl
    | ok r => rfl
  exact ⟨hsub, hsub, rfl, rfl⟩

/-- C8: each blocking entry point and its async variant are the same
function of the session state, the arguments and the client responses:
they return the identical success value or identical typed failure. -/
theorem C8_sync_async_same_semantics (ex : HyperliquidExchange)
    (info : HyperliquidInfo) (rust : RustEnv) (order : OrderRequest)
    (cancel : CancelRequest) (asset : Option String) (address : String) :
    ex.place_order rust order = ex.place_order_async rust order
    ∧ ex.cancel_order rust cancel = ex.cancel_order_async rust cancel
    ∧ ex.cancel_all_orders rust asset = ex.cancel_all_orders_async rust asset
    ∧ info.get_user_state rust address = info.get_user_state_async rust address
    ∧ info.get_open_orders rust address = info.get_open_orders_async rust address
    ∧ info.get_user_balances rust address = info.get_user_balances_async rust address
    ∧ info.get_all_mids = info.get_all_mids_async :=
  ⟨rfl, rfl, rfl, rfl, rfl, rfl, rfl⟩

/-- C9: every successfully returned `UserState` — from the blocking or the
async query — has `margin_summary_equity` equal to
`margin_summary_account_value`: both are parsed from the same venue text
field `margin_summary.account_value`. -/
theorem C9_equity_equals_account_value (self : HyperliquidInfo) (rust : RustEnv)
    (address : String) (us : UserState)
    (h : self.get_user_state rust address = Except.ok us
        ∨ self.get_user_state_async rust address = Except.ok us) :
    us.margin_summary_equity = us.margin_summary_account_value := by
  have hsync : self.get_user_state rust address = Except.ok us := by
    cases h with
    | inl h => exact h
    | inr h => exact (get_user_state_async_eq self rust address).symm.trans h
  cases hA : rust.parseAddress address with
  | error e =>
      exfalso
      simp only [HyperliquidInfo.get_user_state, run_blocking, hA, Except.mapError,
        Bind.bind, Except.bind] at hsync
      exact Except.noConfusion hsync
  | ok addr =>
      cases hS : self.client.user_state addr with
      | error e =>
          exfalso
          simp only [HyperliquidInfo.get_user_state, run_blocking, hA, hS,
            Except.mapError, Bind.bind, Except.bind] at hsync
          exact Except.noConfusion hsync
      | ok st =>
          have := (get_user_state_ok self rust address addr st hA hS).symm.trans hsync
          have hus : mkUserState rust address st = us := Except.ok.inj this
          rw [← hus]
          rfl

/-- C9 witness: the concrete session returns a state whose two fields agree. -/
theorem C9_equity_equals_account_value_witness :
    (hlInfo0.get_user_state rustEnvNoParse "0xabc"
        = Except.ok (mkUserState rustEnvNoParse "0xabc" sdkUserState0)
      ∨ hlInfo0.get_user_state_async rustEnvNoParse "0xabc"
        = Except.ok (mkUserState rustEnvNoParse "0xabc" sdkUserState0))
    ∧ (mkUserState rustEnvNoParse "0xabc" sdkUserState0).margin_summary_equity
      = (mkUserState rustEnvNoParse "0xabc" sdkUserState0).margin_summary_account_value :=
  ⟨Or.inl rfl,
    C9_equity_equals_account_value hlInfo0 rustEnvNoParse "0xabc"
      (mkUserState rustEnvNoParse "0xabc" sdkUserState0) (Or.inl rfl)⟩

/-- C10: for every address string the parser accepts, the returned
`UserState` carries the caller's input string back verbatim in its `address`
field — the parsed address is used only for the query, never echoed back
reformatted. -/
theorem C10_address_echoed_verbatim (self : HyperliquidInfo) (rust : RustEnv)
    (address : String) (addr : Address) (st : SdkUserState)
    (hA : rust.parseAddress address = Except.ok addr)
    (hS : self.client.user_state addr = Except.ok st) :
    self.get_user_state rust address = Except.ok (mkUserState rust address st)
    ∧ self.get_user_state_async rust address = Except.ok (mkUserState rust address st)
    ∧ (mkUserState rust address st).address = address := by
  have hs := get_user_state_ok self rust address addr st hA hS
  exact ⟨hs, (get_user_state_async_eq self rust address).trans hs, rfl⟩

/-- C10 witness: a mixed-case concrete address string comes back unchanged. -/
theorem C10_address_echoed_verbatim_witness :
    (rustEnvNoParse.parseAddress "0xAbC123" = Except.ok addr0
      ∧ hlInfo0.client.user_state addr0 = Except.ok sdkUserState0)
    ∧ (hlInfo0.get_user_state rustEnvNoParse "0xAbC123"
        = Except.ok (mkUserState rustEnvNoParse "0xAbC123" sdkUserState0)
      ∧ hlInfo0.get_user_state_async rustEnvNoParse "0xAbC123"
        = Except.ok (mkUserState rustEnvNoParse "0xAbC123" sdkUserState0)
      ∧ (mkUserState rustEnvNoParse "0xAbC123" sdkUserState0).address = "0xAbC123") :=
  ⟨⟨rfl, rfl⟩,
    C10_address_echoed_verbatim hlInfo0 rustEnvNoParse "0xAbC123" addr0
      sdkUserState0 rfl rfl⟩

end HyperliquidSwift
